import Mathlib

/-!
Shallow embedding of the Price Tracker backend (`main.py`, `schemas.py`):
the data model, the auth and tracking endpoints, and the periodic
price-check job, together with proofs about them.

External collaborators are modelled as parameters or oracles, following
the project design document's component boundaries: the password hasher
(`passlib`) as a boolean verification function, the token issuer
(`pyjwt` encode) as a `String → String` function, JWT decoding as a
`String → Option JwtPayload` oracle (`some` means signature and format
were valid), the price source as a `String → ℚ` function (the inline
mock at `main.py:218` stands in for it; its `hash`-based branch is
process-salted and has no stable value), and the Telegram transport as a
per-item success oracle.  Prices are modelled as rationals and
timestamps as naturals.

Modelled from the spec: `database.py` is not among the sources (only
`db`, `create_document` and `get_documents` are imported from it), so
the document store follows the spec's `DocumentStore` contract —
`insert(collection, doc) -> id`, first-match `findOne`, filtered `find`
with sort/limit, `count`, and first-match `updateOne` — realised over
in-memory lists, with inserted documents appended and ids drawn from a
counter.
-/

namespace PriceTracker

/-- Users collection schema (`schemas.py`, class `User`). -/
structure User where
  email : String
  password_hash : Option String := none
  name : Option String := none
  telegram_token : Option String := none
  telegram_chat_id : Option String := none
  is_pro : Bool := false
deriving DecidableEq

/-- Stored track item: the `TrackItem` schema of `schemas.py` plus the
Mongo `_id` (stringified) and the schemaless `current_price` field that
`check_prices_job` sets via `$set`. -/
structure TrackItemDoc where
  id : String
  user_email : String
  product_id : Option String := none
  url : String
  target_price : ℚ
  status : String := "tracking"
  current_price : Option ℚ := none
deriving DecidableEq

/-- Historical price point (`schemas.py`, class `PricePoint`). -/
structure PricePoint where
  trackitem_id : String
  price : ℚ
  recorded_at : ℕ
deriving DecidableEq

/-- In-memory document store, one list per collection used by the core
flows (the `product` collection is declared but unused). -/
structure DB where
  users : List User := []
  trackitems : List TrackItemDoc := []
  pricepoints : List PricePoint := []
  nextId : ℕ := 0
deriving DecidableEq

/-- Modelled from the spec: `create_document` (in the absent
`database.py`) returns the stringified inserted `_id`; ids here are
drawn from the store's counter. -/
def freshId (n : ℕ) : String := "oid-" ++ toString n

/-- Errors raised by the handlers: `HTTPException(status, detail)`, or a
pydantic validation error escaping a handler body. -/
inductive Err where
  | http (status : ℕ) (detail : String)
  | validation
deriving DecidableEq

/-- Response body of the auth endpoints (`AuthResponse` in `main.py`). -/
structure AuthResponse where
  email : String
  name : Option String := none
  token : String
deriving DecidableEq

/-! String helpers modelling the Python string operations used by
`main.py`, written over the character list so they compute. -/

/-- Model of Python `c in s` for a single-character needle. -/
def strContains (s : String) (c : Char) : Bool := s.data.contains c

/-- Model of Python `s.lower()`. -/
def lowerStr (s : String) : String := ⟨s.data.map Char.toLower⟩

/-- Model of Python `email.split("@")[0]`: the characters before the
first `'@'`. -/
def localPart (s : String) : String := ⟨s.data.takeWhile (fun c => c ≠ '@')⟩

/-- Model of Python `s.split(" ", 1)` on the character list: split at
the first space, `none` when there is no space (so that unpacking into
`scheme, token` raises). -/
def splitFirstSpaceAux : List Char → Option (List Char × List Char)
  | [] => none
  | c :: cs =>
    if c = ' ' then some ([], cs)
    else match splitFirstSpaceAux cs with
      | none => none
      | some (a, b) => some (c :: a, b)

/-- String-level wrapper for `splitFirstSpaceAux`. -/
def splitFirstSpace (s : String) : Option (String × String) :=
  (splitFirstSpaceAux s.data).map (fun p => (⟨p.1⟩, ⟨p.2⟩))

/-- Decoded JWT payload as far as the code reads it: the optional
`sub` claim (`payload.get("sub")`). -/
structure JwtPayload where
  sub : Option String
deriving DecidableEq

/-- Embedding of `get_current_user` (`main.py:44`): requires an
`Authorization: Bearer <token>` header, decodes the token through the
JWT oracle, and returns `payload.get("sub")` — which is `none` when the
payload carries no `sub` claim. -/
def get_current_user (decodeTok : String → Option JwtPayload)
    (authorization : Option String) : Except Err (Option String) :=
  match authorization with
  | none => .error (.http 401 "Missing Authorization header")
  | some auth =>
    match splitFirstSpace auth with
    | none => .error (.http 401 "Invalid token")
    | some (scheme, tok) =>
      if lowerStr scheme ≠ "bearer" then .error (.http 401 "Invalid token")
      else match decodeTok tok with
        | none => .error (.http 401 "Invalid token")
        | some payload => .ok payload.sub

/-- Embedding of `login` (`main.py:126`): one guard covers the three
failure cases (`not doc`, falsy `password_hash`, hash fails to verify),
all raising 401 "Invalid credentials". -/
def login (verify : String → String → Bool) (issue : String → String)
    (db : DB) (email pw : String) : Except Err AuthResponse :=
  match db.users.find? (fun u => u.email = email) with
  | none => .error (.http 401 "Invalid credentials")
  | some doc =>
    match doc.password_hash with
    | none => .error (.http 401 "Invalid credentials")
    | some h =>
      if h = "" then .error (.http 401 "Invalid credentials")
      else if verify pw h then .ok { email := email, name := doc.name, token := issue email }
      else .error (.http 401 "Invalid credentials")

/-- Embedding of `google_auth` (`main.py:136`): the demo token is the
email itself; rejects tokens without `'@'`, provisions a user on first
sight (display name from the local part), reuses an existing user
otherwise, and always issues a token. Returns the updated store
alongside the response. -/
def google_auth (issue : String → String) (db : DB) (tok : String) :
    Except Err (DB × AuthResponse) :=
  if strContains tok '@' = false then
    .error (.http 400 "Invalid Google token (demo expects an email)")
  else
    match db.users.find? (fun u => u.email = tok) with
    | none =>
      let u : User := { email := tok, name := some (localPart tok) }
      .ok ({ db with users := db.users ++ [u] },
           { email := tok, name := none, token := issue tok })
    | some doc =>
      .ok (db, { email := tok, name := doc.name, token := issue tok })

/-- Count of an owner's track items
(`db["trackitem"].count_documents({"user_email": user_email})`). -/
def count_trackitems (db : DB) (email : String) : ℕ :=
  (db.trackitems.filter (fun t => t.user_email = email)).length

/-- Request body of `POST /api/track`. -/
structure CreateTrackRequest where
  url : String
  target_price : ℚ
deriving DecidableEq

/-- Embedding of `create_track` (`main.py:151`): quota check first
(`count >= 5` → 403), then `TrackItem` construction — whose pydantic
`ge=0` bound on `target_price` raises a validation error — then insert,
returning the new id. -/
def create_track (db : DB) (user_email : String) (req : CreateTrackRequest) :
    Except Err (DB × String) :=
  if count_trackitems db user_email ≥ 5 then
    .error (.http 403 "Free tier allows up to 5 products")
  else if req.target_price < 0 then .error .validation
  else
    let i := freshId db.nextId
    let doc : TrackItemDoc :=
      { id := i, user_email := user_email, url := req.url, target_price := req.target_price }
    .ok ({ db with trackitems := db.trackitems ++ [doc], nextId := db.nextId + 1 }, i)

/-- Embedding of `list_tracks` (`main.py:162`): owner-filtered find with
limit 100 (`get_documents` modelled from the spec's `DocumentStore`
contract); the `_id` → `id` key rename is already reflected in
`TrackItemDoc.id`. -/
def list_tracks (db : DB) (user_email : String) : List TrackItemDoc :=
  (db.trackitems.filter (fun t => t.user_email = user_email)).take 100

/-- Projection of a price point to the response shape of
`get_pricepoints` (price and recorded time). -/
def ppView (p : PricePoint) : ℚ × ℕ := (p.price, p.recorded_at)

/-- Descending comparison on `recorded_at`, modelling
`.sort("recorded_at", -1)`. -/
def recentDesc (a b : PricePoint) : Bool := b.recorded_at ≤ a.recorded_at

/-- Embedding of `get_pricepoints` (`main.py:169`): ownership check
first — a missing item (including an unparsable id, which the code
turns into `ti = None`) and an ownership mismatch both raise the same
404 — then the item's points sorted by `recorded_at` descending,
limited to 50, projected, and reversed. -/
def get_pricepoints (db : DB) (trackitem_id caller : String) :
    Except Err (List (ℚ × ℕ)) :=
  match db.trackitems.find? (fun t => t.id = trackitem_id) with
  | none => .error (.http 404 "Track item not found")
  | some ti =>
    if ti.user_email ≠ caller then .error (.http 404 "Track item not found")
    else
      let pts := (db.pricepoints.filter (fun p => p.trackitem_id = trackitem_id)).mergeSort recentDesc
      .ok (((pts.take 50).map ppView).reverse)

/-- Python truthiness of an optional string (`if token and chat_id`):
`None` and `""` are falsy. -/
def truthy : Option String → Bool
  | none => false
  | some s => !(s = "")

/-- Record of one Notification Dispatcher invocation
(`requests.post` to the Telegram API in `check_prices_job`): the
owner's credentials, the item's URL, the observed and target prices,
and whether the transport call succeeded (its failure is swallowed). -/
structure Dispatch where
  user_email : String
  telegram_token : String
  chat_id : String
  url : String
  price : ℚ
  target_price : ℚ
  delivered : Bool
deriving DecidableEq

/-- Oracles for one check cycle: the price source (standing in for the
inline mock at `main.py:218`), whether the `create_document` insert of
an item's price point succeeds (`main.py:221-224`), and whether the
notification transport call succeeds (`main.py:231-236`); both failure
kinds are swallowed by `try/except` in the code. -/
structure CycleCfg where
  price : String → ℚ
  ppWriteOk : TrackItemDoc → Bool
  sendOk : TrackItemDoc → Bool

/-- Price-point write of `check_prices_job` (`main.py:219-224`): the
insert is attempted inside `try/except`, so a failed write leaves the
store unchanged. -/
def recordPoint (cfg : CycleCfg) (now : ℕ) (db : DB) (it : TrackItemDoc) : DB :=
  if cfg.ppWriteOk it then
    { db with pricepoints := db.pricepoints ++ [⟨it.id, cfg.price it.url, now⟩] }
  else db

/-- Notification step of `check_prices_job` (`main.py:227-236`): look
up the owner, and when both Telegram credentials are truthy attempt the
transport call; its outcome is recorded but affects nothing else. -/
def dealDispatches (cfg : CycleCfg) (db : DB) (it : TrackItemDoc) (p : ℚ) : List Dispatch :=
  let user? := db.users.find? (fun u => u.email = it.user_email)
  let tok : Option String := user?.bind (fun u => u.telegram_token)
  let chat : Option String := user?.bind (fun u => u.telegram_chat_id)
  if truthy tok && truthy chat then
    [{ user_email := it.user_email, telegram_token := tok.getD "", chat_id := chat.getD "",
       url := it.url, price := p, target_price := it.target_price,
       delivered := cfg.sendOk it }]
  else []

/-- The `$set` patch applied by `update_one` in both branches of
`check_prices_job` (`main.py:237,239`). -/
def setStatusPrice (d : TrackItemDoc) (st : String) (p : ℚ) : TrackItemDoc :=
  { d with status := st, current_price := some p }

/-- Pure status function of the deal condition (`main.py:226`):
`"deal"` iff the observed price is at most the target. -/
def newStatus (p target : ℚ) : String :=
  if p ≤ target then "deal" else "tracking"

/-- Modelled from the spec: first-match `updateOne` of the
`DocumentStore` contract — patch the first document matching the id
filter, leave the rest untouched. -/
def updateFirst (l : List TrackItemDoc) (tid : String) (f : TrackItemDoc → TrackItemDoc) :
    List TrackItemDoc :=
  match l with
  | [] => []
  | d :: ds => if d.id = tid then f d :: ds else d :: updateFirst ds tid f

/-- Body of the per-item loop of `check_prices_job` (`main.py:216-239`):
observe the price, attempt the price-point write, and either (deal)
dispatch a notification and persist `status="deal"` with the price, or
(otherwise) persist `status="tracking"` with the price. -/
def processItem (cfg : CycleCfg) (now : ℕ) (db : DB) (it : TrackItemDoc) :
    DB × List Dispatch :=
  let p := cfg.price it.url
  let db1 := recordPoint cfg now db it
  if p ≤ it.target_price then
    ({ db1 with trackitems := updateFirst db1.trackitems it.id (fun d => setStatusPrice d "deal" p) },
     dealDispatches cfg db1 it p)
  else
    ({ db1 with trackitems := updateFirst db1.trackitems it.id (fun d => setStatusPrice d "tracking" p) },
     [])

/-- Iteration of the per-item loop over a snapshot of the trackitem
cursor, threading the store and collecting dispatches in order. -/
def runItems (cfg : CycleCfg) (now : ℕ) : List TrackItemDoc → DB → DB × List Dispatch
  | [], db => (db, [])
  | it :: rest, db =>
    let r := processItem cfg now db it
    let s := runItems cfg now rest r.1
    (s.1, r.2 ++ s.2)

/-- Embedding of `check_prices_job` (`main.py:212`): one check cycle
over all track items. -/
def check_prices_job (cfg : CycleCfg) (now : ℕ) (db : DB) : DB × List Dispatch :=
  runItems cfg now db.trackitems db

/-- Run of successive check cycles where cycle `k` observes the `k`-th
price of the schedule for every URL, with all writes and transports
succeeding; returns the final store and the dispatches of each cycle. -/
def runPrices : DB → ℕ → List ℚ → DB × List (List Dispatch)
  | db, _, [] => (db, [])
  | db, t, p :: ps =>
    let r := check_prices_job { price := fun _ => p, ppWriteOk := fun _ => true, sendOk := fun _ => true } t db
    let s := runPrices r.1 (t + 1) ps
    (s.1, r.2 :: s.2)

/-! Concrete fixtures used by counterexamples and witnesses. -/

/-- Owner with Telegram credentials configured. -/
def demoUser : User :=
  { email := "u@example.com", telegram_token := some "tg-token", telegram_chat_id := some "42" }

/-- Tracked item of `demoUser` with target price 5000. -/
def demoItem : TrackItemDoc :=
  { id := "oid-0", user_email := "u@example.com", url := "https://x/y", target_price := 5000 }

/-- Store holding `demoUser` and `demoItem`. -/
def demoDB : DB := { users := [demoUser], trackitems := [demoItem], nextId := 1 }

/-- Second item of `demoUser`, currently in `deal` state. -/
def dealItem : TrackItemDoc :=
  { id := "oid-1", user_email := "u@example.com", url := "https://x/z", target_price := 5000,
    status := "deal", current_price := some 4000 }

/-- Store whose only item is already in `deal` state. -/
def dealDB : DB := { users := [demoUser], trackitems := [dealItem], nextId := 2 }

/-- Store holding two items of the same owner. -/
def twoItemDB : DB := { users := [demoUser], trackitems := [demoItem, dealItem], nextId := 2 }

/-- Cycle oracles observing price 4000 everywhere, everything succeeding. -/
def cfg4000 : CycleCfg := ⟨fun _ => 4000, fun _ => true, fun _ => true⟩

/-- Cycle oracles observing price 6000 everywhere, everything succeeding. -/
def cfg6000 : CycleCfg := ⟨fun _ => 6000, fun _ => true, fun _ => true⟩

/-- Write oracle failing exactly on the item with id `oid-0`. -/
def ppFail0 : TrackItemDoc → Bool := fun d => !(d.id = "oid-0")

/-- User with a bcrypt hash set, for the login fixtures. -/
def hashUser : User := { email := "h@example.com", password_hash := some "bcrypt-hash" }

/-- Store holding `hashUser`. -/
def authDB : DB := { users := [hashUser] }

/-- Password verifier that always rejects. -/
def rejectAll : String → String → Bool := fun _ _ => false

/-- Token issuer fixture. -/
def issue0 : String → String := fun e => "jwt-" ++ e

/-- Store with recorded price points for `demoItem` and `dealItem`. -/
def ppDB : DB :=
  { users := [demoUser], trackitems := [demoItem, dealItem],
    pricepoints := [⟨"oid-0", 5500, 0⟩, ⟨"oid-0", 4000, 1⟩, ⟨"oid-1", 3000, 2⟩],
    nextId := 2 }

/-! Helper lemmas about the scheduler embedding. -/

/-- The `$set` patch never changes the document id. -/
theorem setStatusPrice_id (d : TrackItemDoc) (st : String) (p : ℚ) :
    (setStatusPrice d st p).id = d.id := rfl

/-- The price-point write leaves the user collection untouched. -/
theorem recordPoint_users (cfg : CycleCfg) (now : ℕ) (db : DB) (it : TrackItemDoc) :
    (recordPoint cfg now db it).users = db.users := by
  unfold recordPoint; split <;> rfl

/-- The price-point write leaves the trackitem collection untouched. -/
theorem recordPoint_trackitems (cfg : CycleCfg) (now : ℕ) (db : DB) (it : TrackItemDoc) :
    (recordPoint cfg now db it).trackitems = db.trackitems := by
  unfold recordPoint; split <;> rfl

/-- Price points recorded by one write attempt. -/
theorem recordPoint_pricepoints (cfg : CycleCfg) (now : ℕ) (db : DB) (it : TrackItemDoc) :
    (recordPoint cfg now db it).pricepoints =
      if cfg.ppWriteOk it then db.pricepoints ++ [⟨it.id, cfg.price it.url, now⟩]
      else db.pricepoints := by
  unfold recordPoint; split <;> rfl

/-- Trackitem collection after one per-item step: the first document
with the item's id gets the status determined by the deal condition and
the observed price. -/
theorem processItem_fst_trackitems (cfg : CycleCfg) (now : ℕ) (db : DB) (it : TrackItemDoc) :
    (processItem cfg now db it).1.trackitems =
      updateFirst db.trackitems it.id
        (fun d => setStatusPrice d (newStatus (cfg.price it.url) it.target_price)
          (cfg.price it.url)) := by
  by_cases h : cfg.price it.url ≤ it.target_price <;>
    simp [processItem, newStatus, h, recordPoint_trackitems]

/-- One per-item step leaves the user collection untouched. -/
theorem processItem_fst_users (cfg : CycleCfg) (now : ℕ) (db : DB) (it : TrackItemDoc) :
    (processItem cfg now db it).1.users = db.users := by
  by_cases h : cfg.price it.url ≤ it.target_price <;>
    simp [processItem, h, recordPoint_users]

/-- Price points after one per-item step. -/
theorem processItem_fst_pricepoints (cfg : CycleCfg) (now : ℕ) (db : DB) (it : TrackItemDoc) :
    (processItem cfg now db it).1.pricepoints =
      if cfg.ppWriteOk it then db.pricepoints ++ [⟨it.id, cfg.price it.url, now⟩]
      else db.pricepoints := by
  by_cases h : cfg.price it.url ≤ it.target_price <;>
    simp [processItem, h, recordPoint_pricepoints]

/-- `updateOne` on one id is invisible to `findOne` on a different id,
provided the patch preserves ids. -/
theorem updateFirst_find?_ne (l : List TrackItemDoc) (tid tid' : String)
    (f : TrackItemDoc → TrackItemDoc) (hf : ∀ d, (f d).id = d.id) (hne : tid' ≠ tid) :
    (updateFirst l tid f).find? (fun d => d.id = tid') = l.find? (fun d => d.id = tid') := by
  induction l with
  | nil => rfl
  | cons d ds ih =>
    simp only [updateFirst]
    by_cases hd : d.id = tid
    · have h1 : ¬ ((f d).id = tid') := by
        rw [hf d, hd]; exact fun hcon => hne hcon.symm
      have h2 : ¬ (d.id = tid') := by
        rw [hd]; exact fun hcon => hne hcon.symm
      rw [if_pos hd, List.find?_cons_of_neg _ (by simpa using h1),
          List.find?_cons_of_neg _ (by simpa using h2)]
    · rw [if_neg hd]
      by_cases hd' : d.id = tid'
      · rw [List.find?_cons_of_pos _ (by simpa using hd'),
            List.find?_cons_of_pos _ (by simpa using hd')]
      · rw [List.find?_cons_of_neg _ (by simpa using hd'),
            List.find?_cons_of_neg _ (by simpa using hd'), ih]

/-- `findOne` after `updateOne` on the id of the first matching
document returns that document patched. -/
theorem updateFirst_find?_self (l : List TrackItemDoc) (it : TrackItemDoc)
    (f : TrackItemDoc → TrackItemDoc) (hf : ∀ d, (f d).id = d.id)
    (hfirst : l.find? (fun d => d.id = it.id) = some it) :
    (updateFirst l it.id f).find? (fun d => d.id = it.id) = some (f it) := by
  induction l with
  | nil => simp [List.find?] at hfirst
  | cons d ds ih =>
    by_cases hd : d.id = it.id
    · rw [List.find?_cons_of_pos _ (by simpa using hd)] at hfirst
      have hde : d = it := Option.some.inj hfirst
      subst hde
      simp only [updateFirst]
      rw [if_pos True.intro, List.find?_cons_of_pos _ (by simp [hf d, hd])]
    · simp only [updateFirst, if_neg hd]
      rw [List.find?_cons_of_neg _ (by simpa using hd)] at hfirst
      rw [List.find?_cons_of_neg _ (by simpa using hd)]
      exact ih hfirst

/-- Iterating the loop body leaves the user collection untouched. -/
theorem runItems_fst_users (cfg : CycleCfg) (now : ℕ) (todo : List TrackItemDoc) (db : DB) :
    (runItems cfg now todo db).1.users = db.users := by
  induction todo generalizing db with
  | nil => rfl
  | cons it rest ih =>
    simp only [runItems]
    rw [ih, processItem_fst_users]

/-- Iterating the loop body over items whose ids all differ from `tid`
is invisible to `findOne` on `tid`. -/
theorem runItems_find?_untouched (cfg : CycleCfg) (now : ℕ) (todo : List TrackItemDoc)
    (db : DB) (tid : String) (h : ∀ j ∈ todo, j.id ≠ tid) :
    (runItems cfg now todo db).1.trackitems.find? (fun d => d.id = tid) =
      db.trackitems.find? (fun d => d.id = tid) := by
  induction todo generalizing db with
  | nil => rfl
  | cons j rest ih =>
    simp only [runItems]
    rw [ih _ (fun x hx => h x (List.mem_cons_of_mem _ hx)), processItem_fst_trackitems]
    exact updateFirst_find?_ne _ _ _ _ (fun d => setStatusPrice_id d _ _)
      (fun hcon => h j (List.mem_cons_self _ _) hcon.symm)

/-- Splitting one iteration pass at a list split point. -/
theorem runItems_append (cfg : CycleCfg) (now : ℕ) (a b : List TrackItemDoc) (db : DB) :
    runItems cfg now (a ++ b) db =
      ((runItems cfg now b (runItems cfg now a db).1).1,
       (runItems cfg now a db).2 ++ (runItems cfg now b (runItems cfg now a db).1).2) := by
  induction a generalizing db with
  | nil => simp [runItems]
  | cons it rest ih => simp [runItems, ih, List.append_assoc]

/-- Status and price persisted by one check cycle on an item of the
snapshot, under unique ids: the cycle leaves exactly the
`newStatus`/`current_price` patch on it. -/
theorem check_find?_processed (cfg : CycleCfg) (now : ℕ) (db : DB) (it : TrackItemDoc)
    (hmem : it ∈ db.trackitems)
    (hids : (db.trackitems.map TrackItemDoc.id).Nodup) :
    (check_prices_job cfg now db).1.trackitems.find? (fun d => d.id = it.id) =
      some (setStatusPrice it (newStatus (cfg.price it.url) it.target_price)
        (cfg.price it.url)) := by
  obtain ⟨pre, post, h⟩ := List.append_of_mem hmem
  have hids' := hids
  rw [h, List.map_append, List.map_cons, List.nodup_append, List.nodup_cons] at hids'
  obtain ⟨-, ⟨hnotpost, -⟩, hdisj⟩ := hids'
  have hpre : ∀ j ∈ pre, j.id ≠ it.id := by
    intro j hj hcon
    exact hdisj (List.mem_map_of_mem _ hj) (by rw [hcon]; exact List.mem_cons_self _ _)
  have hpost : ∀ j ∈ post, j.id ≠ it.id := by
    intro j hj hcon
    exact hnotpost (hcon ▸ List.mem_map_of_mem _ hj)
  have hfirst : db.trackitems.find? (fun d => d.id = it.id) = some it := by
    rw [h, List.find?_append,
        List.find?_eq_none.mpr (fun x hx => by simpa using hpre x hx),
        Option.none_or, List.find?_cons_of_pos _ (by simp)]
  unfold check_prices_job
  rw [h, runItems_append]
  simp only [runItems]
  rw [runItems_find?_untouched cfg now post _ it.id hpost, processItem_fst_trackitems]
  exact updateFirst_find?_self _ it _ (fun d => setStatusPrice_id d _ _)
    (by rw [runItems_find?_untouched cfg now pre db it.id hpre, hfirst])

/-- Price points accumulated by one iteration pass: exactly one point
per item whose write succeeded, appended in iteration order. -/
theorem runItems_pricepoints (cfg : CycleCfg) (now : ℕ) (todo : List TrackItemDoc) (db : DB) :
    (runItems cfg now todo db).1.pricepoints =
      db.pricepoints ++
        (todo.filter cfg.ppWriteOk).map (fun j => (⟨j.id, cfg.price j.url, now⟩ : PricePoint)) := by
  induction todo generalizing db with
  | nil => simp [runItems]
  | cons j rest ih =>
    simp only [runItems]
    rw [ih, processItem_fst_pricepoints]
    by_cases hw : cfg.ppWriteOk j
    · simp [hw, List.filter_cons, List.append_assoc]
    · simp [hw, List.filter_cons]

/-- Points attributed to one item by a pass are insensitive to write
failures of items with other ids. -/
theorem filterGen_eq (pp₁ pp₂ : TrackItemDoc → Bool) (price : String → ℚ) (now : ℕ)
    (todo : List TrackItemDoc) (it : TrackItemDoc)
    (huniq : ∀ j ∈ todo, j.id = it.id → j = it) (hpp : pp₁ it = pp₂ it) :
    ((todo.filter pp₁).map (fun j => (⟨j.id, price j.url, now⟩ : PricePoint))).filter
        (fun p => p.trackitem_id = it.id) =
      ((todo.filter pp₂).map (fun j => (⟨j.id, price j.url, now⟩ : PricePoint))).filter
        (fun p => p.trackitem_id = it.id) := by
  induction todo with
  | nil => rfl
  | cons j rest ih =>
    have ih' := ih (fun x hx => huniq x (List.mem_cons_of_mem _ hx))
    rw [List.filter_cons, List.filter_cons]
    by_cases hj : j.id = it.id
    · have hje : j = it := huniq j (List.mem_cons_self _ _) hj
      subst hje
      rw [hpp]
      by_cases hw : pp₂ j <;> simp [hw, List.filter_cons, hj, ih']
    · by_cases h1 : pp₁ j <;> by_cases h2 : pp₂ j <;>
        simp [h1, h2, List.filter_cons, hj, ih']

/-- Claim C1 counterexample: for the observed-price schedule
[6000, 4000, 4000, 6000, 3000] against target 5000 with credentials
configured, `check_prices_job` dispatches a notification at every check
whose price is at most the target — the per-cycle dispatch counts are
[0, 1, 1, 0, 1] — and in particular a notification is sent at the
second 4000 check (index 2), where the item was already in `deal`. -/
theorem repeat_notification_counterexample :
    ((runPrices demoDB 0 [6000, 4000, 4000, 6000, 3000]).2.map List.length) = [0, 1, 1, 0, 1] ∧
    (runPrices demoDB 0 [6000, 4000, 4000, 6000, 3000]).2.getD 2 [] ≠ [] := by
  decide

/-- Claim C1 (amended): during a check cycle, for an item whose owner
has truthy Telegram credentials, the notification transport is invoked
exactly when the newly observed price is at most the target price —
independent of the item's prior status, so an item already in `deal`
is re-notified every cycle while the price stays at or below target. -/
theorem dispatch_iff_deal_price (cfg : CycleCfg) (now : ℕ) (db : DB) (it : TrackItemDoc)
    (u : User) (hu : db.users.find? (fun v => v.email = it.user_email) = some u)
    (ht : truthy u.telegram_token = true) (hc : truthy u.telegram_chat_id = true) :
    (processItem cfg now db it).2 =
      if cfg.price it.url ≤ it.target_price then
        [{ user_email := it.user_email, telegram_token := u.telegram_token.getD "",
           chat_id := u.telegram_chat_id.getD "", url := it.url,
           price := cfg.price it.url, target_price := it.target_price,
           delivered := cfg.sendOk it }]
      else [] := by
  by_cases hp : cfg.price it.url ≤ it.target_price
  · rw [if_pos hp]
    have husers : (recordPoint cfg now db it).users = db.users := recordPoint_users ..
    simp [processItem, hp, dealDispatches, husers, hu, ht, hc]
  · rw [if_neg hp]
    simp [processItem, hp]

/-- Claim C1 witness: concrete deal-price dispatch. -/
theorem dispatch_iff_deal_price_witness :
    (processItem cfg4000 0 demoDB demoItem).2 =
      [{ user_email := "u@example.com", telegram_token := "tg-token", chat_id := "42",
         url := "https://x/y", price := 4000, target_price := 5000, delivered := true }] := by
  have h := dispatch_iff_deal_price cfg4000 0 demoDB demoItem demoUser rfl rfl rfl
  rw [if_pos (by decide : cfg4000.price demoItem.url ≤ demoItem.target_price)] at h
  exact h

/-- Claim C2: after a check cycle, the item's persisted status is
`deal` iff the observed price is at most the target (else `tracking`),
and the observed price is persisted as `current_price`, with no
dependence on the prior status — so an item in `deal` whose price rises
above target returns to `tracking`. -/
theorem status_persisted_matches_price (cfg : CycleCfg) (now : ℕ) (db : DB)
    (it : TrackItemDoc) (hmem : it ∈ db.trackitems)
    (hids : (db.trackitems.map TrackItemDoc.id).Nodup) :
    (check_prices_job cfg now db).1.trackitems.find? (fun d => d.id = it.id) =
      some (setStatusPrice it (newStatus (cfg.price it.url) it.target_price)
        (cfg.price it.url)) :=
  check_find?_processed cfg now db it hmem hids

/-- Claim C2 witness: an item previously in `deal` observed at 6000
against target 5000 is persisted back to `tracking` with price 6000. -/
theorem status_persisted_matches_price_witness :
    (check_prices_job cfg6000 0 dealDB).1.trackitems.find? (fun d => d.id = dealItem.id) =
      some { dealItem with status := "tracking", current_price := some 6000 } := by
  have h := status_persisted_matches_price cfg6000 0 dealDB dealItem (by decide) (by decide)
  have hs : newStatus (cfg6000.price dealItem.url) dealItem.target_price = "tracking" := by
    decide
  rw [hs] at h
  exact h

/-- Claim C4: within one check cycle, write or transport failures while
processing other items never change a given item's recorded price
points or its persisted status/price: runs differing only in the
price-point write oracle away from the item and in the transport oracle
agree on both. -/
theorem per_item_failure_isolation (price : String → ℚ) (pp₁ pp₂ s₁ s₂ : TrackItemDoc → Bool)
    (now : ℕ) (db : DB) (it : TrackItemDoc)
    (hmem : it ∈ db.trackitems) (hids : (db.trackitems.map TrackItemDoc.id).Nodup)
    (hpp : pp₁ it = pp₂ it) :
    ((check_prices_job ⟨price, pp₁, s₁⟩ now db).1.pricepoints.filter
        (fun p => p.trackitem_id = it.id) =
      (check_prices_job ⟨price, pp₂, s₂⟩ now db).1.pricepoints.filter
        (fun p => p.trackitem_id = it.id)) ∧
    ((check_prices_job ⟨price, pp₁, s₁⟩ now db).1.trackitems.find? (fun d => d.id = it.id) =
      (check_prices_job ⟨price, pp₂, s₂⟩ now db).1.trackitems.find? (fun d => d.id = it.id)) := by
  have huniq : ∀ j ∈ db.trackitems, j.id = it.id → j = it := fun j hj hcon =>
    List.inj_on_of_nodup_map hids hj hmem hcon
  constructor
  · unfold check_prices_job
    rw [runItems_pricepoints, runItems_pricepoints, List.filter_append, List.filter_append]
    exact congrArg _ (filterGen_eq pp₁ pp₂ price now db.trackitems it huniq hpp)
  · rw [check_find?_processed ⟨price, pp₁, s₁⟩ now db it hmem hids,
        check_find?_processed ⟨price, pp₂, s₂⟩ now db it hmem hids]

/-- Claim C4 witness: a run in which both the price-point write for
`oid-0` and every transport call fail leaves `oid-1`'s price points and
persisted document identical to the all-success run. -/
theorem per_item_failure_isolation_witness :
    ((check_prices_job ⟨fun _ => 4000, ppFail0, fun _ => false⟩ 0 twoItemDB).1.pricepoints.filter
        (fun p => p.trackitem_id = dealItem.id) =
      (check_prices_job ⟨fun _ => 4000, fun _ => true, fun _ => true⟩ 0 twoItemDB).1.pricepoints.filter
        (fun p => p.trackitem_id = dealItem.id)) ∧
    ((check_prices_job ⟨fun _ => 4000, ppFail0, fun _ => false⟩ 0 twoItemDB).1.trackitems.find?
        (fun d => d.id = dealItem.id) =
      (check_prices_job ⟨fun _ => 4000, fun _ => true, fun _ => true⟩ 0 twoItemDB).1.trackitems.find?
        (fun d => d.id = dealItem.id)) :=
  per_item_failure_isolation (fun _ => 4000) ppFail0 (fun _ => true) (fun _ => false)
    (fun _ => true) 0 twoItemDB dealItem (by decide) (by decide) (by decide)

/-- Claim C3: for a creation request with a valid (non-negative) target
price, creation succeeds iff the owner currently holds fewer than 5
items; at 5 or more it fails with the 403 quota error; and at the
instant a creation completes successfully the owner holds at most 5
items (one more than before). -/
theorem quota_gate_spec (db : DB) (email : String) (req : CreateTrackRequest)
    (hv : 0 ≤ req.target_price) :
    ((create_track db email req).isOk = true ↔ count_trackitems db email < 5) ∧
    (count_trackitems db email ≥ 5 →
      create_track db email req = .error (.http 403 "Free tier allows up to 5 products")) ∧
    (∀ db' i, create_track db email req = .ok (db', i) →
      count_trackitems db' email = count_trackitems db email + 1 ∧
      count_trackitems db' email ≤ 5) := by
  have hneg : ¬ (req.target_price < 0) := not_lt.mpr hv
  by_cases h5 : count_trackitems db email ≥ 5
  · refine ⟨?_, fun _ => by rw [create_track, if_pos h5], ?_⟩
    · rw [create_track, if_pos h5]
      simp [Except.isOk, Except.toBool]
      omega
    · intro db' i hok
      rw [create_track, if_pos h5] at hok
      exact absurd hok (by simp)
  · have hok : create_track db email req =
        .ok ({ db with
                trackitems := db.trackitems ++
                  [{ id := freshId db.nextId, user_email := email, url := req.url,
                     target_price := req.target_price }],
                nextId := db.nextId + 1 }, freshId db.nextId) := by
      rw [create_track, if_neg h5, if_neg hneg]
    refine ⟨?_, fun h => absurd h h5, ?_⟩
    · rw [hok]
      simp [Except.isOk, Except.toBool]
      omega
    · intro db' i h
      rw [hok] at h
      obtain ⟨hdb, -⟩ := Prod.mk.injEq .. ▸ Except.ok.inj h
      subst hdb
      constructor
      · simp [count_trackitems, List.filter_append]
      · have : count_trackitems db email < 5 := by omega
        simp only [count_trackitems, List.filter_append, List.length_append]
        simp only [count_trackitems] at this
        simp
        omega

/-- Claim C3 witness: creation succeeds on an empty store (ending with
1 ≤ 5 items) and fails with the 403 quota error once the owner holds 5
items. -/
theorem quota_gate_spec_witness :
    ((create_track { } "a@x.com" { url := "https://x/y", target_price := 1000 }).isOk = true) ∧
    (create_track
        { trackitems := [
            { id := "oid-0", user_email := "a@x.com", url := "u0", target_price := 1 },
            { id := "oid-1", user_email := "a@x.com", url := "u1", target_price := 1 },
            { id := "oid-2", user_email := "a@x.com", url := "u2", target_price := 1 },
            { id := "oid-3", user_email := "a@x.com", url := "u3", target_price := 1 },
            { id := "oid-4", user_email := "a@x.com", url := "u4", target_price := 1 }],
          nextId := 5 }
        "a@x.com" { url := "https://x/y", target_price := 1000 } =
      .error (.http 403 "Free tier allows up to 5 products")) := by
  constructor
  · exact (quota_gate_spec { } "a@x.com" { url := "https://x/y", target_price := 1000 }
      (by decide)).1.mpr (by decide)
  · exact (quota_gate_spec _ "a@x.com" { url := "https://x/y", target_price := 1000 }
      (by decide)).2.1 (by decide)

/-- Claim C5: login fails with the identical error — 401 "Invalid
credentials" — in all three failure cases: no user for the email, no
(or empty, hence falsy) password hash, and hash verification failure;
a caller cannot distinguish them from the returned error. -/
theorem login_uniform_error (verify : String → String → Bool) (issue : String → String)
    (db : DB) (email pw : String) :
    (db.users.find? (fun u => u.email = email) = none →
      login verify issue db email pw = .error (.http 401 "Invalid credentials")) ∧
    (∀ u, db.users.find? (fun u => u.email = email) = some u →
      (u.password_hash = none ∨ u.password_hash = some "") →
      login verify issue db email pw = .error (.http 401 "Invalid credentials")) ∧
    (∀ u h, db.users.find? (fun u => u.email = email) = some u →
      u.password_hash = some h → h ≠ "" → verify pw h = false →
      login verify issue db email pw = .error (.http 401 "Invalid credentials")) := by
  refine ⟨fun h1 => ?_, fun u hu hph => ?_, fun u h hu hph hne hvf => ?_⟩
  · simp [login, h1]
  · rcases hph with h2 | h2 <;> simp [login, hu, h2]
  · simp [login, hu, hph, hne, hvf]

/-- Claim C5 witness: the three failure cases on concrete stores all
return the same error value. -/
theorem login_uniform_error_witness :
    (login rejectAll issue0 { } "a@x.com" "pw" = .error (.http 401 "Invalid credentials")) ∧
    (login rejectAll issue0 demoDB "u@example.com" "pw" =
      .error (.http 401 "Invalid credentials")) ∧
    (login rejectAll issue0 authDB "h@example.com" "pw" =
      .error (.http 401 "Invalid credentials")) :=
  ⟨(login_uniform_error rejectAll issue0 { } "a@x.com" "pw").1 rfl,
   (login_uniform_error rejectAll issue0 demoDB "u@example.com" "pw").2.1 demoUser rfl
     (Or.inl rfl),
   (login_uniform_error rejectAll issue0 authDB "h@example.com" "pw").2.2 hashUser
     "bcrypt-hash" rfl rfl (by decide) rfl⟩

/-- Claim C6: listing price points fails with the identical error — 404
"Track item not found" — both when no item has the requested id and
when the item exists but belongs to a different owner, so the two cases
are indistinguishable to the caller. -/
theorem pricepoints_notfound_uniform (db : DB) (tid caller : String) :
    (db.trackitems.find? (fun t => t.id = tid) = none →
      get_pricepoints db tid caller = .error (.http 404 "Track item not found")) ∧
    (∀ ti, db.trackitems.find? (fun t => t.id = tid) = some ti → ti.user_email ≠ caller →
      get_pricepoints db tid caller = .error (.http 404 "Track item not found")) := by
  constructor
  · intro h
    simp [get_pricepoints, h]
  · intro ti hti hne
    simp [get_pricepoints, hti, hne]

/-- Claim C6 witness: a nonexistent id and another owner's id return
the same error value. -/
theorem pricepoints_notfound_uniform_witness :
    (get_pricepoints { } "oid-0" "a@x.com" = .error (.http 404 "Track item not found")) ∧
    (get_pricepoints demoDB "oid-0" "other@example.com" =
      .error (.http 404 "Track item not found")) :=
  ⟨(pricepoints_notfound_uniform { } "oid-0" "a@x.com").1 rfl,
   (pricepoints_notfound_uniform demoDB "oid-0" "other@example.com").2 demoItem rfl
     (by decide)⟩

/-- Claim C8: external auth with a token carrying an email never fails:
on first sight it provisions a user whose display name is the local
part of the email (before the first `'@'`) and issues a session; for a
known email it reuses the existing user and creates nothing. -/
theorem external_auth_always_provisions (issue : String → String) (db : DB) (tok : String)
    (hat : strContains tok '@' = true) :
    (db.users.find? (fun u => u.email = tok) = none →
      google_auth issue db tok =
        .ok ({ db with users := db.users ++ [{ email := tok, name := some (localPart tok) }] },
             { email := tok, name := none, token := issue tok })) ∧
    (∀ u, db.users.find? (fun u => u.email = tok) = some u →
      google_auth issue db tok = .ok (db, { email := tok, name := u.name, token := issue tok })) := by
  constructor
  · intro hn
    simp [google_auth, hat, hn]
  · intro u hu
    simp [google_auth, hat, hu]

/-- Claim C8 witness: provisioning of "new@site.com" with display name
"new" on an empty store, and reuse without creation for the existing
"u@example.com". -/
theorem external_auth_always_provisions_witness :
    (google_auth issue0 { } "new@site.com" =
      .ok ({ users := [{ email := "new@site.com", name := some "new" }] },
           { email := "new@site.com", name := none, token := "jwt-new@site.com" })) ∧
    (google_auth issue0 demoDB "u@example.com" =
      .ok (demoDB, { email := "u@example.com", name := none, token := "jwt-u@example.com" })) := by
  constructor
  · have h := (external_auth_always_provisions issue0 { } "new@site.com" (by decide)).1 rfl
    exact h
  · have h := (external_auth_always_provisions issue0 demoDB "u@example.com" (by decide)).2
      demoUser rfl
    exact h

/-- Claim C9: for an owner with no existing items, creating an item
with url "https://x/y" and target price 1000 and then listing the
owner's items returns exactly one item, in status `tracking` with
target price 1000. -/
theorem create_then_list_roundtrip (db : DB) (email : String)
    (hempty : db.trackitems.filter (fun t => t.user_email = email) = []) :
    ∃ db' i, create_track db email { url := "https://x/y", target_price := 1000 } = .ok (db', i) ∧
      ∃ d, list_tracks db' email = [d] ∧
        d.status = "tracking" ∧ d.target_price = 1000 ∧ d.url = "https://x/y" := by
  have hc : count_trackitems db email = 0 := by
    simp [count_trackitems, hempty]
  have h5 : ¬ count_trackitems db email ≥ 5 := by omega
  refine ⟨{ db with
            trackitems := db.trackitems ++
              [{ id := freshId db.nextId, user_email := email, url := "https://x/y",
                 target_price := 1000 }],
            nextId := db.nextId + 1 }, freshId db.nextId, ?_, ?_⟩
  · rw [create_track, if_neg h5, if_neg (by norm_num)]
  · refine ⟨{ id := freshId db.nextId, user_email := email, url := "https://x/y",
              target_price := 1000 }, ?_, rfl, rfl, rfl⟩
    simp [list_tracks, List.filter_append, hempty]

/-- Claim C9 witness: round trip on the empty store. -/
theorem create_then_list_roundtrip_witness :
    ∃ db' i, create_track { } "a@x.com" { url := "https://x/y", target_price := 1000 } =
        .ok (db', i) ∧
      ∃ d, list_tracks db' "a@x.com" = [d] ∧
        d.status = "tracking" ∧ d.target_price = 1000 ∧ d.url = "https://x/y" :=
  create_then_list_roundtrip { } "a@x.com" rfl

/-- Claim C7: listing price points for an item owned by the caller
succeeds and returns at most 50 entries, ordered by recorded time
ascending, and drawn from the most recently recorded points: the
item's points split into the returned selection and a remainder whose
members are all recorded no later than every selected point. -/
theorem pricepoints_recent_bounded_ascending (db : DB) (tid caller : String)
    (ti : TrackItemDoc) (hfind : db.trackitems.find? (fun t => t.id = tid) = some ti)
    (hown : ti.user_email = caller) :
    ∃ out : List (ℚ × ℕ), get_pricepoints db tid caller = .ok out ∧
      out.length ≤ 50 ∧
      List.Pairwise (fun a b : ℚ × ℕ => a.2 ≤ b.2) out ∧
      ∃ sel rest : List PricePoint,
        (sel ++ rest).Perm (db.pricepoints.filter (fun p => p.trackitem_id = tid)) ∧
        out = (sel.map ppView).reverse ∧
        ∀ q ∈ rest, ∀ pt ∈ sel, q.recorded_at ≤ pt.recorded_at := by
  have htrans : ∀ a b c : PricePoint, recentDesc a b = true → recentDesc b c = true →
      recentDesc a c = true := by
    intro a b c hab hbc
    simp only [recentDesc, decide_eq_true_eq] at hab hbc ⊢
    omega
  have htotal : ∀ a b : PricePoint, (recentDesc a b || recentDesc b a) = true := by
    intro a b
    simp only [recentDesc, Bool.or_eq_true, decide_eq_true_eq]
    omega
  set rel := db.pricepoints.filter (fun p => p.trackitem_id = tid) with hrel
  set sorted := rel.mergeSort recentDesc with hsorted
  have hpair : List.Pairwise (fun a b : PricePoint => b.recorded_at ≤ a.recorded_at) sorted := by
    have h := List.sorted_mergeSort htrans htotal rel
    simp only [recentDesc, decide_eq_true_eq] at h
    exact h
  have hout : get_pricepoints db tid caller = .ok (((sorted.take 50).map ppView).reverse) := by
    simp [get_pricepoints, hfind, hown, hsorted, hrel]
  refine ⟨_, hout, ?_, ?_, sorted.take 50, sorted.drop 50, ?_, rfl, ?_⟩
  · simp only [List.length_reverse, List.length_map, List.length_take]
    exact min_le_left _ _
  · rw [List.pairwise_reverse, List.pairwise_map]
    exact List.Pairwise.sublist (List.take_sublist 50 sorted) hpair
  · rw [List.take_append_drop, hsorted]
    exact List.mergeSort_perm rel recentDesc
  · intro q hq pt hp
    have hps := hpair
    rw [← List.take_append_drop 50 sorted] at hps
    exact (List.pairwise_append.mp hps).2.2 pt hp q hq

/-- Claim C7 witness: listing for `oid-0` on the fixture store. -/
theorem pricepoints_recent_bounded_ascending_witness :
    ∃ out : List (ℚ × ℕ), get_pricepoints ppDB "oid-0" "u@example.com" = .ok out ∧
      out.length ≤ 50 ∧
      List.Pairwise (fun a b : ℚ × ℕ => a.2 ≤ b.2) out ∧
      ∃ sel rest : List PricePoint,
        (sel ++ rest).Perm (ppDB.pricepoints.filter (fun p => p.trackitem_id = "oid-0")) ∧
        out = (sel.map ppView).reverse ∧
        ∀ q ∈ rest, ∀ pt ∈ sel, q.recorded_at ≤ pt.recorded_at :=
  pricepoints_recent_bounded_ascending ppDB "oid-0" "u@example.com" demoItem rfl rfl

/-- Claim C10: a session token whose signature validates but whose
payload carries no `sub` claim is not rejected: `get_current_user`
returns a null identity instead of a 401, so the guarded handlers are
invoked with that null identity. -/
theorem missing_sub_claim_passes_auth (decodeTok : String → Option JwtPayload) (tok : String)
    (p : JwtPayload) (hdec : decodeTok tok = some p) (hsub : p.sub = none) :
    get_current_user decodeTok (some ("Bearer " ++ tok)) = .ok none := by
  have hdata : ("Bearer " ++ tok).data =
      'B' :: 'e' :: 'a' :: 'r' :: 'e' :: 'r' :: ' ' :: tok.data := by
    rw [String.data_append]
    rfl
  have hsplit : splitFirstSpace ("Bearer " ++ tok) = some ("Bearer", tok) := by
    simp [splitFirstSpace, hdata, splitFirstSpaceAux]
  have hlow : lowerStr "Bearer" = "bearer" := by decide
  simp [get_current_user, hsplit, hlow, hdec, hsub]

/-- Claim C10 witness: a concrete valid-signature token with an empty
payload passes authentication with a null identity. -/
theorem missing_sub_claim_passes_auth_witness :
    get_current_user (fun _ => some { sub := none }) (some ("Bearer " ++ "x.y.z")) = .ok none :=
  missing_sub_claim_passes_auth (fun _ => some { sub := none }) "x.y.z" { sub := none } rfl rfl

end PriceTracker
